import Mathlib

/-!
Shallow embedding of the double-entry ledger API (Express/Prisma service).

The embedding models the persistent state (accounts, ledger entries,
transaction records) as lists, monetary decimals as exact rationals, and
the service functions `getBalance`, `transfer` (src/services/ledgerService.js)
and the route handlers POST /transfers (src/routes/flows.js) and
GET /accounts/:id/ledger (src/routes/accounts.js) as pure functions.
Database-generated identifiers are modelled by a counter `nextId`; the
rollback performed by `prisma.$transaction` on a thrown error is modelled
by discarding the state produced by the transaction body. The write phase
of `transfer` converts every persisted value through `amount.toNumber()`
(binary64) before storage; the embedding keeps that conversion as an
explicit `toNumber : ℚ → ℚ` parameter threaded through `transferBody`,
`transfer`, `createTransfer`, `postState` and `runTransfers`.
-/

namespace LedgerApi

/-- One row of the LedgerEntry table: an immutable signed fact about one
account. `entryType` is the string `"debit"` or `"credit"` in the source. -/
structure LedgerEntry where
  id : Nat
  accountId : String
  transactionId : Nat
  entryType : String
  amount : ℚ
  currency : String
deriving DecidableEq, Repr

/-- One row of the Account table (the `balance` field is the cached
projection the service overwrites after each transfer). -/
structure Account where
  id : String
  userId : String
  accountType : String
  currency : String
  balance : ℚ
deriving DecidableEq, Repr

/-- One row of the Transaction table, as created by `transfer`. -/
structure Transaction where
  id : Nat
  type : String
  sourceAccountId : String
  destinationAccountId : String
  amount : ℚ
  currency : String
  status : String
deriving DecidableEq, Repr

/-- The persistent database state. `nextId` models the id generator for
rows created by the service. -/
structure DbState where
  accounts : List Account
  entries : List LedgerEntry
  txns : List Transaction
  nextId : Nat
deriving DecidableEq, Repr

/-- Errors raised by the service and route layers (src/errors.js):
`badRequest` is the 400 validation error, `unprocessableEntity` the 422
business-rule error thrown inside `transfer`. -/
inductive ApiError where
  | badRequest : String → ApiError
  | unprocessableEntity : String → ApiError
deriving DecidableEq, Repr

/-- Lookup of `tx.account.findUnique({ where: { id } })`. -/
def findAccount (st : DbState) (id : String) : Option Account :=
  st.accounts.find? (fun a => a.id = id)

/-- The ledger entries of one account, as returned by
`tx.ledgerEntry.findMany({ where: { accountId } })` (stored order). -/
def accountEntries (st : DbState) (accountId : String) : List LedgerEntry :=
  st.entries.filter (fun e => e.accountId = accountId)

/-- The fold step of `getBalance`: credits increase the running balance,
debits decrease it, any other entry type is skipped by the if/else chain. -/
def balanceStep (bal : ℚ) (e : LedgerEntry) : ℚ :=
  if e.entryType = "credit" then bal + e.amount
  else if e.entryType = "debit" then bal - e.amount
  else bal

/-- Embeds `getBalance(tx, accountId, currency)`: sums all ledger entries
of the account starting from `new Decimal(0)`; Decimal arithmetic is
modelled exactly over ℚ. The `currency` argument is unused in the source. -/
def getBalance (st : DbState) (accountId : String) : ℚ :=
  (accountEntries st accountId).foldl balanceStep 0

/-- Embeds line 37 of the service, `[sourceAccountId, destinationAccountId].sort()`:
the two lock targets in the deterministic (lexicographic) order in which
the two SELECT ... FOR UPDATE statements are issued. -/
def lockedIds (sourceAccountId destinationAccountId : String) : List String :=
  if sourceAccountId ≤ destinationAccountId
  then [sourceAccountId, destinationAccountId]
  else [destinationAccountId, sourceAccountId]

/-- Embeds `tx.transaction.create` inside `transfer`: appends the
transaction row (status `"completed"`) and returns it. -/
def createTxnRecord (st : DbState) (sourceAccountId destinationAccountId : String)
    (amount : ℚ) (currency : String) : DbState × Transaction :=
  let txn : Transaction :=
    { id := st.nextId, type := "transfer",
      sourceAccountId := sourceAccountId,
      destinationAccountId := destinationAccountId,
      amount := amount, currency := currency, status := "completed" }
  ({ st with txns := st.txns ++ [txn], nextId := st.nextId + 1 }, txn)

/-- Embeds `tx.ledgerEntry.create`: appends one ledger entry row. -/
def createLedgerEntry (st : DbState) (accountId : String) (transactionId : Nat)
    (entryType : String) (amount : ℚ) (currency : String) : DbState :=
  { st with
    entries := st.entries ++
      [{ id := st.nextId, accountId := accountId, transactionId := transactionId,
         entryType := entryType, amount := amount, currency := currency }],
    nextId := st.nextId + 1 }

/-- Embeds `tx.account.update({ where: { id }, data: { balance } })`. -/
def updateStoredBalance (st : DbState) (accountId : String) (newBalance : ℚ) : DbState :=
  { st with
    accounts := st.accounts.map
      (fun a => if a.id = accountId then { a with balance := newBalance } else a) }

/-- Embeds the body of the `prisma.$transaction` callback in `transfer`
(after the two lock statements): fetch both accounts, reject a missing
account, re-derive the source balance, reject insufficient funds, then
create the transaction record, the debit and credit entries, and refresh
both cached balances. The parameter `toNumber` models the conversion the
source applies to every value it persists (`amount.toNumber()` on the
transaction row and on both ledger entries, `newSourceBalance.toNumber()`
and `newDestBalance.toNumber()` on the cached balances): Decimal to
binary64 double followed by serialization into the DECIMAL(20,8) column.
The sufficiency check compares the unconverted exact amount, as in the
source (`sourceBalance.lessThan(amount)`). The returned state is the state
at return or at throw time; the enclosing transaction discards it on
error. -/
def transferBody (toNumber : ℚ → ℚ) (st : DbState)
    (sourceAccountId destinationAccountId : String)
    (amount : ℚ) (currency : String) : DbState × Except ApiError Transaction :=
  match findAccount st sourceAccountId, findAccount st destinationAccountId with
  | some _, some _ =>
      if getBalance st sourceAccountId < amount then
        (st, .error (.unprocessableEntity "insufficient funds"))
      else
        let p := createTxnRecord st sourceAccountId destinationAccountId
          (toNumber amount) currency
        let st1 := p.1
        let txn := p.2
        let st2 := createLedgerEntry st1 sourceAccountId txn.id "debit"
          (toNumber amount) currency
        let st3 := createLedgerEntry st2 destinationAccountId txn.id "credit"
          (toNumber amount) currency
        let newSourceBalance := getBalance st3 sourceAccountId
        let newDestBalance := getBalance st3 destinationAccountId
        let st4 := updateStoredBalance st3 sourceAccountId
          (toNumber newSourceBalance)
        let st5 := updateStoredBalance st4 destinationAccountId
          (toNumber newDestBalance)
        (st5, .ok txn)
  | _, _ => (st, .error (.unprocessableEntity "Account does not exist"))

/-- Embeds `transfer({ sourceAccountId, destinationAccountId, amount, currency })`:
the first component records the lock targets in acquisition order (the
locks are taken unconditionally at the start of the transaction body); the
second is the result, where an error means the transaction rolled back and
the pre-call state is what any reader observes. -/
def transfer (toNumber : ℚ → ℚ) (st : DbState)
    (sourceAccountId destinationAccountId : String)
    (amount : ℚ) (currency : String) :
    List String × Except ApiError (Transaction × DbState) :=
  (lockedIds sourceAccountId destinationAccountId,
    match transferBody toNumber st sourceAccountId destinationAccountId
        amount currency with
    | (st5, .ok txn) => .ok (txn, st5)
    | (_, .error e) => .error e)

/-- A parsed POST /transfers request body. `amount = none` models a field
that is absent or fails decimal parsing (`undefined` / NaN). -/
structure TransferRequest where
  sourceAccountId : String
  destinationAccountId : String
  amount : Option ℚ
  currency : String
deriving DecidableEq, Repr

/-- Embeds the POST /transfers handler (src/routes/flows.js): field
presence, self-transfer rejection, positive-amount and currency-shape
validation, then the call into `transfer` with the upper-cased currency.
The first component is the list of lock targets actually requested: empty
when validation fails before the service is invoked. -/
def createTransfer (toNumber : ℚ → ℚ) (st : DbState) (req : TransferRequest) :
    List String × Except ApiError (Transaction × DbState) :=
  if req.sourceAccountId = "" ∨ req.destinationAccountId = "" ∨
      req.amount = none ∨ req.currency = "" then
    ([], .error (.badRequest
      "sourceAccountId, destinationAccountId, amount, currency required"))
  else if req.sourceAccountId = req.destinationAccountId then
    ([], .error (.badRequest
      "sourceAccountId and destinationAccountId must be different"))
  else
    match req.amount with
    | none => ([], .error (.badRequest "amount must be a positive number"))
    | some amt =>
      if amt ≤ 0 then
        ([], .error (.badRequest "amount must be a positive number"))
      else if req.currency.length ≠ 3 then
        ([], .error (.badRequest "currency must be a 3-letter code"))
      else
        transfer toNumber st req.sourceAccountId req.destinationAccountId amt
          req.currency.toUpper

/-- The state a reader observes after a POST /transfers call: the new
state on success, the unchanged pre-call state on error (rollback). -/
def postState (toNumber : ℚ → ℚ) (st : DbState) (req : TransferRequest) :
    DbState :=
  match (createTransfer toNumber st req).2 with
  | .ok r => r.2
  | .error _ => st

/-- Applies a sequence of POST /transfers attempts, each observing the
state left by the previous one. -/
def runTransfers (toNumber : ℚ → ℚ) (st : DbState) :
    List TransferRequest → DbState
  | [] => st
  | req :: reqs => runTransfers toNumber (postState toNumber st req) reqs

/-- The number of ledger entries of one account. -/
def entryCount (st : DbState) (accountId : String) : Nat :=
  (accountEntries st accountId).length

/-- Sum of the amounts of the credit entries in a list. -/
def creditSum (l : List LedgerEntry) : ℚ :=
  ((l.filter (fun e => e.entryType = "credit")).map (fun e => e.amount)).sum

/-- Sum of the amounts of the debit entries in a list. -/
def debitSum (l : List LedgerEntry) : ℚ :=
  ((l.filter (fun e => e.entryType = "debit")).map (fun e => e.amount)).sum

/-- The transaction record created by a successful transfer from the
state `st` (its id is the next generated id). -/
def transferTxn (st : DbState) (sourceAccountId destinationAccountId : String)
    (amount : ℚ) (currency : String) : Transaction :=
  { id := st.nextId, type := "transfer",
    sourceAccountId := sourceAccountId,
    destinationAccountId := destinationAccountId,
    amount := amount, currency := currency, status := "completed" }

/-- The debit ledger entry created on the source account by a successful
transfer from the state `st`. -/
def transferDebit (st : DbState) (sourceAccountId : String) (amount : ℚ)
    (currency : String) : LedgerEntry :=
  { id := st.nextId + 1, accountId := sourceAccountId,
    transactionId := st.nextId, entryType := "debit",
    amount := amount, currency := currency }

/-- The credit ledger entry created on the destination account by a
successful transfer from the state `st`. -/
def transferCredit (st : DbState) (destinationAccountId : String) (amount : ℚ)
    (currency : String) : LedgerEntry :=
  { id := st.nextId + 2, accountId := destinationAccountId,
    transactionId := st.nextId, entryType := "credit",
    amount := amount, currency := currency }

/-- The state left by the write phase of a successful transfer of the
requested (exact) `amount`: the transaction row and both entries carry the
persisted `toNumber amount`, and the cached balances are refreshed from
the ledger, again through `toNumber`. -/
def transferWrittenState (toNumber : ℚ → ℚ) (st : DbState)
    (sourceAccountId destinationAccountId : String)
    (amount : ℚ) (currency : String) : DbState :=
  let st3 : DbState :=
    { st with
      txns := st.txns ++ [transferTxn st sourceAccountId destinationAccountId
        (toNumber amount) currency],
      entries := st.entries ++
        [transferDebit st sourceAccountId (toNumber amount) currency,
         transferCredit st destinationAccountId (toNumber amount) currency],
      nextId := st.nextId + 3 }
  updateStoredBalance
    (updateStoredBalance st3 sourceAccountId
      (toNumber (getBalance st3 sourceAccountId)))
    destinationAccountId (toNumber (getBalance st3 destinationAccountId))

/-- The JSON page returned by GET /accounts/:id/ledger: the selected
entries plus the pagination block. -/
structure LedgerPage where
  entries : List LedgerEntry
  total : Nat
  limit : Nat
  offset : Nat
  hasMore : Bool
deriving DecidableEq, Repr

/-- Embeds the GET /accounts/:id/ledger handler: `limitNum` is
`Math.min(parseInt(limit, 10) || 100, 1000)` (a zero or unparsable limit
falls back to 100), the total count and the page are taken from the
LedgerEntry table filtered by `accountId` (newest first), and the response
is always a success payload — the handler never consults the Account table
and has no not-found branch. -/
def getLedger (st : DbState) (id : String) (limit offset : Nat) : LedgerPage :=
  let limitNum := min (if limit = 0 then 100 else limit) 1000
  let offsetNum := offset
  let total := (accountEntries st id).length
  let page := (((accountEntries st id).reverse).drop offsetNum).take limitNum
  { entries := page, total := total, limit := limitNum, offset := offsetNum,
    hasMore := decide (offsetNum + page.length < total) }

/-- The set of values a finite IEEE-754 binary64 number can carry: every
finite double is an integer multiple of a (possibly negative) power of
two, so multiplying by a large enough power of two yields an integer.
This models the codomain of `Decimal.prototype.toNumber`, which the
service applies to the amount before writing the transaction row and both
ledger entries (`amount: amount.toNumber()`). -/
def DoubleRepresentable (q : ℚ) : Prop :=
  ∃ (m : ℤ) (k : ℕ), q * 2 ^ k = (m : ℚ)

/-- The amount the service records on the transaction row and on both
ledger entries of a transfer: the requested decimal passed through the
`toNumber` conversion (`amount.toNumber()` in the source). -/
def storedTransferAmount (toNumber : ℚ → ℚ) (amount : ℚ) : ℚ :=
  toNumber amount

/-- The decimal 12345678901.12345678: nineteen significant digits, within
the DECIMAL(20,8) range of the amount columns. -/
def cexTransferAmount : ℚ := 1234567890112345678 / 100000000

/-- The value actually persisted for `cexTransferAmount`: the nearest
binary64 double to 12345678901.12345678 serializes (shortest round-trip
decimal) as 12345678901.123457, stored in the DECIMAL(20,8) column as
12345678901.12345700 — greater than the requested amount. -/
def cexPersistedAmount : ℚ := 1234567890112345700 / 100000000

/-- A concrete instance of the persistence conversion: agrees with the
behaviour of `amount.toNumber()` followed by storage into the
DECIMAL(20,8) column at the amount `cexTransferAmount` (the only amount
persisted in the counterexample run below; the identity elsewhere only
reaches the cached balance fields, which `getBalance` never reads). -/
def cexToNumber : ℚ → ℚ := fun q =>
  if q = cexTransferAmount then cexPersistedAmount else q

/-- A concrete account used in witness states. -/
def wAcctA : Account :=
  { id := "a", userId := "u1", accountType := "checking", currency := "USD",
    balance := 0 }

/-- A concrete account whose currency differs from `wAcctA`. -/
def wAcctB : Account :=
  { id := "b", userId := "u2", accountType := "savings", currency := "EUR",
    balance := 0 }

/-- A concrete credit entry giving account `"a"` a balance of 10. -/
def wEntry : LedgerEntry :=
  { id := 0, accountId := "a", transactionId := 0, entryType := "credit",
    amount := 10, currency := "USD" }

/-- A concrete database state with two accounts and one ledger entry. -/
def wState : DbState :=
  { accounts := [wAcctA, wAcctB], entries := [wEntry], txns := [], nextId := 1 }

/-- A concrete empty database state. -/
def wEmpty : DbState :=
  { accounts := [], entries := [], txns := [], nextId := 0 }

/-- A concrete self-transfer POST /transfers request. -/
def wReqSelf : TransferRequest :=
  { sourceAccountId := "a", destinationAccountId := "a", amount := some 4,
    currency := "USD" }

/-- A concrete USD destination account for the non-negativity run. -/
def cexAcctB : Account :=
  { id := "b", userId := "u2", accountType := "savings", currency := "USD",
    balance := 0 }

/-- A credit entry giving account a the exact balance 12345678901.12345678. -/
def cexEntry : LedgerEntry :=
  { id := 0, accountId := "a", transactionId := 0, entryType := "credit",
    amount := cexTransferAmount, currency := "USD" }

/-- A concrete state in which every derived balance is non-negative:
account a holds exactly 12345678901.12345678, account b holds 0. -/
def cexState : DbState :=
  { accounts := [wAcctA, cexAcctB], entries := [cexEntry], txns := [],
    nextId := 1 }

/-- A POST /transfers request moving the full balance of account a. -/
def cexReq : TransferRequest :=
  { sourceAccountId := "a", destinationAccountId := "b",
    amount := some cexTransferAmount, currency := "USD" }

/-! Helper lemmas about the balance fold. -/

theorem balanceStep_add (b x : ℚ) (e : LedgerEntry) :
    balanceStep (b + x) e = b + balanceStep x e := by
  unfold balanceStep
  split_ifs <;> ring

theorem foldl_balanceStep_shift (l : List LedgerEntry) (b : ℚ) :
    l.foldl balanceStep b = b + l.foldl balanceStep 0 := by
  induction l generalizing b with
  | nil => simp
  | cons e l ih =>
      rw [List.foldl_cons, List.foldl_cons, ih (balanceStep b e),
        ih (balanceStep 0 e)]
      have h := balanceStep_add b 0 e
      rw [add_zero] at h
      rw [h]
      ring

theorem foldl_balanceStep_append (l1 l2 : List LedgerEntry) :
    (l1 ++ l2).foldl balanceStep 0 =
      l1.foldl balanceStep 0 + l2.foldl balanceStep 0 := by
  rw [List.foldl_append, foldl_balanceStep_shift]

theorem foldl_balanceStep_eq_sums (l : List LedgerEntry) :
    l.foldl balanceStep 0 = creditSum l - debitSum l := by
  induction l with
  | nil => simp [creditSum, debitSum]
  | cons e l ih =>
      rw [List.foldl_cons, foldl_balanceStep_shift, ih]
      simp only [creditSum, debitSum, List.filter_cons]
      by_cases h1 : e.entryType = "credit"
      · simp [balanceStep, h1]
        ring
      · by_cases h2 : e.entryType = "debit"
        · simp [balanceStep, h1, h2]
          ring
        · simp [balanceStep, h1, h2]

theorem updateStoredBalance_entries (st : DbState) (a : String) (b : ℚ) :
    (updateStoredBalance st a b).entries = st.entries := rfl

theorem updateStoredBalance_txns (st : DbState) (a : String) (b : ℚ) :
    (updateStoredBalance st a b).txns = st.txns := rfl

theorem transferWrittenState_entries (toNumber : ℚ → ℚ) (st : DbState)
    (src dst : String) (amt : ℚ) (cur : String) :
    (transferWrittenState toNumber st src dst amt cur).entries =
      st.entries ++ [transferDebit st src (toNumber amt) cur,
        transferCredit st dst (toNumber amt) cur] := rfl

theorem transferWrittenState_txns (toNumber : ℚ → ℚ) (st : DbState)
    (src dst : String) (amt : ℚ) (cur : String) :
    (transferWrittenState toNumber st src dst amt cur).txns =
      st.txns ++ [transferTxn st src dst (toNumber amt) cur] := rfl

theorem transferBody_missing (toNumber : ℚ → ℚ) (st : DbState)
    (src dst : String) (amt : ℚ) (cur : String)
    (h : findAccount st src = none ∨ findAccount st dst = none) :
    transferBody toNumber st src dst amt cur =
      (st, .error (.unprocessableEntity "Account does not exist")) := by
  rcases h with h | h
  · cases h2 : findAccount st dst <;> simp [transferBody, h, h2]
  · cases h2 : findAccount st src <;> simp [transferBody, h, h2]

theorem transferBody_insufficient (toNumber : ℚ → ℚ) (st : DbState)
    (src dst : String) (amt : ℚ)
    (cur : String) (hs : (findAccount st src).isSome)
    (hd : (findAccount st dst).isSome) (hbal : getBalance st src < amt) :
    transferBody toNumber st src dst amt cur =
      (st, .error (.unprocessableEntity "insufficient funds")) := by
  obtain ⟨sa, hsa⟩ := Option.isSome_iff_exists.mp hs
  obtain ⟨da, hda⟩ := Option.isSome_iff_exists.mp hd
  simp [transferBody, hsa, hda, if_pos hbal]

theorem transferBody_success (toNumber : ℚ → ℚ) (st : DbState)
    (src dst : String) (amt : ℚ)
    (cur : String) (hs : (findAccount st src).isSome)
    (hd : (findAccount st dst).isSome) (hbal : ¬ getBalance st src < amt) :
    transferBody toNumber st src dst amt cur =
      (transferWrittenState toNumber st src dst amt cur,
        .ok (transferTxn st src dst (toNumber amt) cur)) := by
  obtain ⟨sa, hsa⟩ := Option.isSome_iff_exists.mp hs
  obtain ⟨da, hda⟩ := Option.isSome_iff_exists.mp hd
  simp only [transferBody, hsa, hda, if_neg hbal]
  simp [createTxnRecord, createLedgerEntry, updateStoredBalance, getBalance,
    accountEntries, transferWrittenState, transferTxn, transferDebit,
    transferCredit]

theorem transfer_success_eq (toNumber : ℚ → ℚ) (st : DbState)
    (src dst : String) (amt : ℚ)
    (cur : String) (hs : (findAccount st src).isSome)
    (hd : (findAccount st dst).isSome) (hbal : ¬ getBalance st src < amt) :
    (transfer toNumber st src dst amt cur).2 =
      .ok (transferTxn st src dst (toNumber amt) cur,
        transferWrittenState toNumber st src dst amt cur) := by
  simp [transfer, transferBody_success toNumber st src dst amt cur hs hd hbal]

theorem getBalance_transferWrittenState (toNumber : ℚ → ℚ) (st : DbState)
    (src dst : String) (amt : ℚ) (cur : String) (x : String) :
    getBalance (transferWrittenState toNumber st src dst amt cur) x =
      getBalance st x + (if src = x then -(toNumber amt) else 0)
        + (if dst = x then toNumber amt else 0) := by
  have h : getBalance (transferWrittenState toNumber st src dst amt cur) x =
      getBalance st x +
        (List.filter (fun e => e.accountId = x)
          [transferDebit st src (toNumber amt) cur,
           transferCredit st dst (toNumber amt) cur]).foldl
            balanceStep 0 := by
    unfold getBalance accountEntries
    rw [transferWrittenState_entries, List.filter_append,
      foldl_balanceStep_append]
  rw [h]
  by_cases h1 : src = x <;> by_cases h2 : dst = x <;>
    simp [transferDebit, transferCredit, balanceStep, h1, h2,
      List.filter_cons]

/-- C1: for every account, the balance computed by getBalance equals the
fold over the ledger entries of that account (0 start, credits add, debits
subtract), and this equals the sum of credit amounts minus the sum of
debit amounts over all entries of that account. -/
theorem getBalance_eq_credit_sub_debit (st : DbState) (accountId : String) :
    getBalance st accountId =
      creditSum (accountEntries st accountId)
        - debitSum (accountEntries st accountId) :=
  foldl_balanceStep_eq_sums (accountEntries st accountId)

/-- C6: the ordered pair of lock targets computed by transfer for a
transfer from X to Y is identical to the pair computed for a transfer from
Y to X (in any states, for any amounts and currencies), namely the two
identifiers sorted by the total lexicographic order on strings. -/
theorem transfer_lock_order_symmetric (tn tn2 : ℚ → ℚ) (st st2 : DbState)
    (x y : String) (a a2 : ℚ) (c c2 : String) :
    (transfer tn st x y a c).1 = (transfer tn2 st2 y x a2 c2).1 ∧
      (transfer tn st x y a c).1 = lockedIds x y := by
  refine ⟨?_, rfl⟩
  show lockedIds x y = lockedIds y x
  unfold lockedIds
  rcases le_total x y with h | h
  · by_cases h2 : y ≤ x
    · have hxy : x = y := le_antisymm h h2
      simp [hxy]
    · simp [h, h2]
  · by_cases h2 : x ≤ y
    · have hxy : x = y := le_antisymm h2 h
      simp [hxy]
    · simp [h, h2]

theorem postState_error (toNumber : ℚ → ℚ) (st : DbState)
    (req : TransferRequest) (e : ApiError)
    (h : (createTransfer toNumber st req).2 = .error e) :
    postState toNumber st req = st := by
  simp [postState, h]

theorem postState_ok (toNumber : ℚ → ℚ) (st : DbState) (req : TransferRequest)
    (txn : Transaction) (st2 : DbState)
    (h : (createTransfer toNumber st req).2 = .ok (txn, st2)) :
    postState toNumber st req = st2 := by
  simp [postState, h]

theorem transfer_snd_error (toNumber : ℚ → ℚ) (st s : DbState)
    (src dst : String) (amt : ℚ) (cur : String) (e : ApiError)
    (hb : transferBody toNumber st src dst amt cur = (s, .error e)) :
    (transfer toNumber st src dst amt cur).2 = .error e := by
  simp [transfer, hb]

theorem createTransfer_ok_inv (toNumber : ℚ → ℚ) (st : DbState)
    (req : TransferRequest) (txn : Transaction) (st2 : DbState)
    (h : (createTransfer toNumber st req).2 = .ok (txn, st2)) :
    ∃ amt, req.amount = some amt ∧ 0 < amt ∧
      req.sourceAccountId ≠ req.destinationAccountId ∧
      ¬ getBalance st req.sourceAccountId < amt ∧
      txn = transferTxn st req.sourceAccountId req.destinationAccountId
        (toNumber amt) req.currency.toUpper ∧
      st2 = transferWrittenState toNumber st req.sourceAccountId
        req.destinationAccountId amt req.currency.toUpper := by
  by_cases h1 : req.sourceAccountId = "" ∨ req.destinationAccountId = "" ∨
      req.amount = none ∨ req.currency = ""
  · simp [createTransfer, h1] at h
  have hn := h1
  push_neg at hn
  obtain ⟨hna, hnb, hnc, hnd⟩ := hn
  by_cases h2 : req.sourceAccountId = req.destinationAccountId
  · simp [createTransfer, hna, hnb, hnc, hnd, h2] at h
  cases hamt : req.amount with
  | none => exact absurd hamt hnc
  | some amt =>
    refine ⟨amt, rfl, ?_⟩
    by_cases h3 : amt ≤ 0
    · simp [createTransfer, hna, hnb, hnd, h2, hamt, h3] at h
    by_cases h4 : req.currency.length ≠ 3
    · simp [createTransfer, hna, hnb, hnd, h2, hamt, h3, h4] at h
    have hred : (createTransfer toNumber st req).2 =
        (transfer toNumber st req.sourceAccountId req.destinationAccountId amt
          req.currency.toUpper).2 := by
      simp [createTransfer, hna, hnb, hnd, h2, hamt, h3, h4]
    rw [hred] at h
    cases hfs : findAccount st req.sourceAccountId with
    | none =>
        rw [transfer_snd_error toNumber st st req.sourceAccountId
          req.destinationAccountId amt req.currency.toUpper _
          (transferBody_missing toNumber st req.sourceAccountId
            req.destinationAccountId
            amt req.currency.toUpper (Or.inl hfs))] at h
        simp at h
    | some sa =>
      cases hfd : findAccount st req.destinationAccountId with
      | none =>
          rw [transfer_snd_error toNumber st st req.sourceAccountId
            req.destinationAccountId amt req.currency.toUpper _
            (transferBody_missing toNumber st req.sourceAccountId
              req.destinationAccountId amt req.currency.toUpper
              (Or.inr hfd))] at h
          simp at h
      | some da =>
        have hs : (findAccount st req.sourceAccountId).isSome := by
          rw [hfs]; rfl
        have hd : (findAccount st req.destinationAccountId).isSome := by
          rw [hfd]; rfl
        by_cases hbal : getBalance st req.sourceAccountId < amt
        · rw [transfer_snd_error toNumber st st req.sourceAccountId
            req.destinationAccountId amt req.currency.toUpper _
            (transferBody_insufficient toNumber st req.sourceAccountId
              req.destinationAccountId amt req.currency.toUpper hs hd
              hbal)] at h
          simp at h
        · rw [transfer_success_eq toNumber st req.sourceAccountId
            req.destinationAccountId
            amt req.currency.toUpper hs hd hbal] at h
          have hpair := Except.ok.inj h
          exact ⟨lt_of_not_le h3, h2, hbal,
            (congrArg Prod.fst hpair).symm, (congrArg Prod.snd hpair).symm⟩

/-- C2: for every transfer request reaching the decision step (both
accounts exist), if the source balance re-derived from the ledger is less
than the requested amount the transfer aborts with the insufficient-funds
error and the transaction body has written no ledger entry and no
transaction record; if the re-derived balance is at least the amount, the
transfer proceeds to the write phase and returns a transaction record. -/
theorem transfer_decision (toNumber : ℚ → ℚ) (st : DbState)
    (src dst : String) (amt : ℚ)
    (cur : String) (hs : (findAccount st src).isSome)
    (hd : (findAccount st dst).isSome) :
    (getBalance st src < amt →
      (transfer toNumber st src dst amt cur).2 =
        .error (.unprocessableEntity "insufficient funds") ∧
      (transferBody toNumber st src dst amt cur).1 = st) ∧
    (¬ getBalance st src < amt →
      ∃ txn st2, (transfer toNumber st src dst amt cur).2 = .ok (txn, st2)) := by
  constructor
  · intro hlt
    have hb := transferBody_insufficient toNumber st src dst amt cur hs hd hlt
    exact ⟨transfer_snd_error toNumber st st src dst amt cur _ hb, by rw [hb]⟩
  · intro hge
    exact ⟨_, _, transfer_success_eq toNumber st src dst amt cur hs hd hge⟩

/-- Witness for C2: both branches of the decision at a concrete two
account state where the source holds 10. -/
theorem transfer_decision_witness :
    (getBalance wState "a" < 4 →
      (transfer cexToNumber wState "a" "b" 4 "USD").2 =
        .error (.unprocessableEntity "insufficient funds") ∧
      (transferBody cexToNumber wState "a" "b" 4 "USD").1 = wState) ∧
    (¬ getBalance wState "a" < 4 →
      ∃ txn st2,
        (transfer cexToNumber wState "a" "b" 4 "USD").2 = .ok (txn, st2)) :=
  transfer_decision cexToNumber wState "a" "b" 4 "USD" rfl rfl

/-- C3: every POST /transfers call that returns an error leaves the
observable state unchanged: the ledger entry count of both involved
accounts and the transaction table are exactly as before the call. -/
theorem createTransfer_error_atomic (toNumber : ℚ → ℚ) (st : DbState)
    (req : TransferRequest)
    (e : ApiError) (h : (createTransfer toNumber st req).2 = .error e) :
    entryCount (postState toNumber st req) req.sourceAccountId =
      entryCount st req.sourceAccountId ∧
    entryCount (postState toNumber st req) req.destinationAccountId =
      entryCount st req.destinationAccountId ∧
    (postState toNumber st req).txns = st.txns := by
  rw [postState_error toNumber st req e h]
  exact ⟨rfl, rfl, rfl⟩

/-- Witness for C3: a concrete rejected self-transfer call leaves the
entry counts and the transaction table unchanged. -/
theorem createTransfer_error_atomic_witness :
    (createTransfer cexToNumber wState wReqSelf).2 =
      .error (.badRequest
        "sourceAccountId and destinationAccountId must be different") ∧
    (entryCount (postState cexToNumber wState wReqSelf)
        wReqSelf.sourceAccountId =
      entryCount wState wReqSelf.sourceAccountId ∧
    entryCount (postState cexToNumber wState wReqSelf)
        wReqSelf.destinationAccountId =
      entryCount wState wReqSelf.destinationAccountId ∧
    (postState cexToNumber wState wReqSelf).txns = wState.txns) :=
  ⟨rfl, createTransfer_error_atomic cexToNumber wState wReqSelf _ rfl⟩

/-- C4: every transfer that commits creates exactly two ledger entries
carrying the identifier of its transaction record — one debit on the
source account and one credit on the destination account, both with the
amount and the currency of the transaction (the recorded amount being the
persisted toNumber image of the request, as at all three write sites of
the source) — provided the prior state contains no entry with a
not-yet-generated transaction identifier. -/
theorem transfer_pairing (toNumber : ℚ → ℚ) (st : DbState)
    (src dst : String) (amt : ℚ)
    (cur : String)
    (hfresh : ∀ e ∈ st.entries, e.transactionId < st.nextId)
    (hs : (findAccount st src).isSome) (hd : (findAccount st dst).isSome)
    (hbal : ¬ getBalance st src < amt) :
    ∃ txn st2, (transfer toNumber st src dst amt cur).2 = .ok (txn, st2) ∧
      st2.entries.filter (fun e => e.transactionId = txn.id) =
        [{ id := txn.id + 1, accountId := src, transactionId := txn.id,
           entryType := "debit", amount := txn.amount,
           currency := txn.currency },
         { id := txn.id + 2, accountId := dst, transactionId := txn.id,
           entryType := "credit", amount := txn.amount,
           currency := txn.currency }] ∧
      txn.amount = toNumber amt ∧ txn.currency = cur ∧ txn.type = "transfer" ∧
      txn.sourceAccountId = src ∧ txn.destinationAccountId = dst := by
  refine ⟨_, _, transfer_success_eq toNumber st src dst amt cur hs hd hbal, ?_,
    rfl, rfl, rfl, rfl, rfl⟩
  rw [transferWrittenState_entries, List.filter_append]
  have h1 : st.entries.filter
      (fun e => e.transactionId =
        (transferTxn st src dst (toNumber amt) cur).id) = [] := by
    rw [List.filter_eq_nil_iff]
    intro e he
    have := hfresh e he
    simp only [transferTxn, decide_eq_true_eq]
    omega
  rw [h1]
  simp [transferDebit, transferCredit, transferTxn]

/-- Witness for C4 at a concrete state: the committed transfer of 4 from
account a to account b yields exactly the paired debit and credit. -/
theorem transfer_pairing_witness :
    (∀ e ∈ wState.entries, e.transactionId < wState.nextId) ∧
    (∃ txn st2,
      (transfer cexToNumber wState "a" "b" 4 "USD").2 = .ok (txn, st2) ∧
      st2.entries.filter (fun e => e.transactionId = txn.id) =
        [{ id := txn.id + 1, accountId := "a", transactionId := txn.id,
           entryType := "debit", amount := txn.amount,
           currency := txn.currency },
         { id := txn.id + 2, accountId := "b", transactionId := txn.id,
           entryType := "credit", amount := txn.amount,
           currency := txn.currency }] ∧
      txn.amount = cexToNumber 4 ∧ txn.currency = "USD" ∧
      txn.type = "transfer" ∧
      txn.sourceAccountId = "a" ∧ txn.destinationAccountId = "b") :=
  have hfresh : ∀ e ∈ wState.entries, e.transactionId < wState.nextId := by
    decide
  have hbal : ¬ getBalance wState "a" < 4 := by
    have h10 : getBalance wState "a" = 10 := by
      simp [getBalance, accountEntries, wState, wEntry, balanceStep]
    rw [h10]; decide
  ⟨hfresh,
    transfer_pairing cexToNumber wState "a" "b" 4 "USD" hfresh rfl rfl hbal⟩

/-- C5 is refuted as a code bug at a concrete input: in a state where
every derived balance is non-negative (account a holds exactly
12345678901.12345678), one accepted POST /transfers of that full balance
drives the derived balance of account a below zero. The sufficiency check
compares the exact decimal and passes with equality, but the persisted
debit is the binary64-persisted 12345678901.12345700, greater than the
request, so the derived balance becomes -0.00000022. -/
theorem nonneg_broken_by_persisted_rounding :
    (∀ x, 0 ≤ getBalance cexState x) ∧
    getBalance (runTransfers cexToNumber cexState [cexReq]) "a" < 0 := by
  have hbalA : getBalance cexState "a" = cexTransferAmount := by
    simp [getBalance, accountEntries, cexState, cexEntry, balanceStep]
  constructor
  · intro x
    by_cases hx : "a" = x
    · rw [← hx, hbalA]
      norm_num [cexTransferAmount]
    · have hz : getBalance cexState x = 0 := by
        simp [getBalance, accountEntries, cexState, cexEntry, hx]
      rw [hz]
  · have hpos : ¬ (cexTransferAmount ≤ 0) := by norm_num [cexTransferAmount]
    have hlen : ¬ (("USD" : String).length ≠ 3) := by decide
    have hbal : ¬ getBalance cexState "a" < cexTransferAmount := by
      rw [hbalA]; exact lt_irrefl _
    have hok : (createTransfer cexToNumber cexState cexReq).2 =
        .ok (transferTxn cexState "a" "b" (cexToNumber cexTransferAmount)
            ("USD" : String).toUpper,
          transferWrittenState cexToNumber cexState "a" "b" cexTransferAmount
            ("USD" : String).toUpper) := by
      have hred : (createTransfer cexToNumber cexState cexReq).2 =
          (transfer cexToNumber cexState "a" "b" cexTransferAmount
            ("USD" : String).toUpper).2 := by
        simp [createTransfer, cexReq, hpos, hlen]
      rw [hred]
      exact transfer_success_eq cexToNumber cexState "a" "b" cexTransferAmount
        ("USD" : String).toUpper rfl rfl hbal
    have hrun : runTransfers cexToNumber cexState [cexReq] =
        transferWrittenState cexToNumber cexState "a" "b" cexTransferAmount
          ("USD" : String).toUpper := by
      show postState cexToNumber cexState cexReq = _
      exact postState_ok cexToNumber cexState cexReq _ _ hok
    rw [hrun, getBalance_transferWrittenState, hbalA, if_pos rfl,
      if_neg (by decide : ¬ ("b" : String) = "a")]
    have htn : cexToNumber cexTransferAmount = cexPersistedAmount := by
      simp [cexToNumber]
    rw [htn]
    norm_num [cexTransferAmount, cexPersistedAmount]

/-- C7 counterexample: the destination account exists with currency EUR,
different from the stated currency USD, yet the transfer commits instead
of aborting — the service checks account existence but never compares the
account currencies with the stated currency. -/
theorem transfer_no_currency_check_cex :
    (findAccount wState "b").map Account.currency = some "EUR" ∧
    "EUR" ≠ "USD" ∧
    ∃ txn st2,
      (transfer cexToNumber wState "a" "b" 4 "USD").2 = .ok (txn, st2) := by
  refine ⟨rfl, by decide, ⟨_, _,
    transfer_success_eq cexToNumber wState "a" "b" 4 "USD" rfl rfl ?_⟩⟩
  have h10 : getBalance wState "a" = 10 := by
    simp [getBalance, accountEntries, wState, wEntry, balanceStep]
  rw [h10]; decide

/-- C7 amended: for every transfer request, both referenced accounts must
exist; if either is missing, the transfer aborts (as part of the locking
phase) with the account-does-not-exist condition and writes nothing. The
currency of the accounts is not validated against the stated currency. -/
theorem transfer_missing_account_aborts (toNumber : ℚ → ℚ) (st : DbState)
    (src dst : String)
    (amt : ℚ) (cur : String)
    (h : findAccount st src = none ∨ findAccount st dst = none) :
    (transfer toNumber st src dst amt cur).2 =
      .error (.unprocessableEntity "Account does not exist") ∧
    (transferBody toNumber st src dst amt cur).1 = st := by
  have hb := transferBody_missing toNumber st src dst amt cur h
  exact ⟨transfer_snd_error toNumber st st src dst amt cur _ hb, by rw [hb]⟩

/-- Witness for the amended C7: a transfer towards a missing account
aborts with the account-does-not-exist condition and writes nothing. -/
theorem transfer_missing_account_aborts_witness :
    findAccount wState "zz" = none ∧
    ((transfer cexToNumber wState "a" "zz" 4 "USD").2 =
        .error (.unprocessableEntity "Account does not exist") ∧
      (transferBody cexToNumber wState "a" "zz" 4 "USD").1 = wState) :=
  ⟨rfl, transfer_missing_account_aborts cexToNumber wState "a" "zz" 4 "USD"
    (Or.inr rfl)⟩

/-- C8: every POST /transfers call whose source account identifier equals
its destination account identifier is rejected with a 400 validation
error before any lock is requested (the lock trace is empty) and without
touching storage (no state is produced). -/
theorem self_transfer_rejected (toNumber : ℚ → ℚ) (st : DbState)
    (req : TransferRequest)
    (h : req.sourceAccountId = req.destinationAccountId) :
    (createTransfer toNumber st req).1 = [] ∧
    ∃ msg, (createTransfer toNumber st req).2 = .error (.badRequest msg) := by
  by_cases h1 : req.sourceAccountId = "" ∨ req.destinationAccountId = "" ∨
      req.amount = none ∨ req.currency = ""
  · simp only [createTransfer, if_pos h1]
    exact ⟨trivial, _, rfl⟩
  · simp only [createTransfer, if_neg h1, if_pos h]
    exact ⟨trivial, _, rfl⟩

/-- Witness for C8: a concrete self-transfer request is rejected with an
empty lock trace. -/
theorem self_transfer_rejected_witness :
    (createTransfer cexToNumber wState wReqSelf).1 = [] ∧
    ∃ msg,
      (createTransfer cexToNumber wState wReqSelf).2 =
        .error (.badRequest msg) :=
  self_transfer_rejected cexToNumber wState wReqSelf rfl

/-- C9 is refuted as a code bug: the service stores `amount.toNumber()` on
the transaction row and on both ledger entries, and the codomain of
`toNumber` (finite binary64 doubles) contains only dyadic rationals, so
for the DECIMAL(20,8) representable request amount 12345678901.12345678
the recorded amount cannot equal the requested amount — for any rounding
behaviour of the conversion. -/
theorem stored_amount_not_exact (toNumber : ℚ → ℚ)
    (h : ∀ q, DoubleRepresentable (toNumber q)) :
    storedTransferAmount toNumber cexTransferAmount ≠ cexTransferAmount := by
  intro heq
  have hd : DoubleRepresentable cexTransferAmount := heq ▸ h cexTransferAmount
  obtain ⟨m, k, hm⟩ := hd
  have h2 : (1234567890112345678 : ℚ) * 2 ^ k = (m : ℚ) * 100000000 := by
    rw [cexTransferAmount] at hm
    field_simp at hm
    linarith
  have h3 : (1234567890112345678 : ℤ) * 2 ^ k = m * 100000000 := by
    exact_mod_cast h2
  have h5 : (5 : ℤ) ∣ 1234567890112345678 * 2 ^ k :=
    ⟨m * 20000000, by rw [h3]; ring⟩
  have hp : Prime (5 : ℤ) := by norm_num
  rcases hp.dvd_mul.mp h5 with h6 | h6
  · norm_num at h6
  · have h7 := hp.dvd_of_dvd_pow h6
    norm_num at h7

/-- Witness for C9: the zero function has a double-representable codomain
and indeed fails to store the counterexample amount exactly. -/
theorem stored_amount_not_exact_witness :
    (∀ q : ℚ, DoubleRepresentable ((fun _ => (0 : ℚ)) q)) ∧
    storedTransferAmount (fun _ => (0 : ℚ)) cexTransferAmount ≠
      cexTransferAmount :=
  have hd : ∀ q : ℚ, DoubleRepresentable ((fun _ => (0 : ℚ)) q) := fun _ =>
    ⟨0, 0, by norm_num⟩
  ⟨hd, stored_amount_not_exact (fun _ => (0 : ℚ)) hd⟩

/-- C10: for an account identifier for which no account exists (in a
state whose entries all belong to existing accounts), GET
/accounts/:id/ledger does not return a not-found error: it returns the
success payload with an empty entry list and total 0, for any limit and
offset. -/
theorem getLedger_unknown_account_ok (st : DbState) (id : String)
    (limit offset : Nat)
    (hwf : ∀ e ∈ st.entries, ∃ a ∈ st.accounts, a.id = e.accountId)
    (hid : findAccount st id = none) :
    getLedger st id limit offset =
      { entries := [], total := 0,
        limit := min (if limit = 0 then 100 else limit) 1000,
        offset := offset, hasMore := false } := by
  have hnone : ∀ a ∈ st.accounts, a.id ≠ id := by
    intro a ha
    have := List.find?_eq_none.mp hid a ha
    simpa using this
  have hnil : accountEntries st id = [] := by
    rw [accountEntries, List.filter_eq_nil_iff]
    intro e he
    obtain ⟨a, ha, hae⟩ := hwf e he
    simp only [decide_eq_true_eq]
    intro hcontra
    exact hnone a ha (by rw [hae, hcontra])
  simp [getLedger, hnil]

/-- Witness for C10: reading the ledger of the unknown account zz on the
empty state yields the empty page with total 0. -/
theorem getLedger_unknown_account_ok_witness :
    getLedger wEmpty "zz" 5 2 =
      { entries := [], total := 0,
        limit := min (if (5 : Nat) = 0 then 100 else 5) 1000,
        offset := 2, hasMore := false } :=
  getLedger_unknown_account_ok wEmpty "zz" 5 2
    (by intro e he; cases he) rfl

end LedgerApi
